import Mathlib

set_option maxRecDepth 10000

/-!
Shallow embedding of the counter-pick program (`app.py`, `helpers.py`).

`helpers.py` wraps a single OpenAI structured-output call; `app.py` collects
an enemy team composition, renders a prompt, calls the helper and prints the
result.  Machine strings are modelled as Lean `String` (lists of characters);
Python exceptions are modelled as an `Except` result carrying an error kind;
the network is an oracle function in an explicit environment, and each run
returns a trace recording the result, how many network invocations and client
constructions happened, and which lines were printed.
-/

/-- A JSON-ish value, the raw content a completion service may return for a
field before schema validation. -/
inductive JVal : Type where
  | str (s : String)
  | num (n : Int)
  | arr (xs : List JVal)

/-- The raw service response for the `ChampionRecommendations` schema: each
declared field is either absent (`none`) or holds some raw JSON value. -/
structure RawResponse : Type where
  champions : Option JVal
  reasoning : Option JVal
  key_threats : Option JVal

/-- Model `ChampionRecommendations` from `app.py`: champions is a list of 3-5
names, plus a reasoning string and a list of key threats. -/
structure ChampionRecommendations : Type where
  champions : List String
  reasoning : String
  key_threats : List String

/-- Decode a JSON array's elements as strings; `none` when any element is not
a string (pydantic type error on a list item). -/
def decodeStrList : List JVal → Option (List String)
  | [] => some []
  | JVal.str s :: rest =>
      match decodeStrList rest with
      | some ss => some (s :: ss)
      | none => none
  | _ => none

/-- Validation of the `champions` field: present, a list of strings, with the
declared bounds `min_items=3`, `max_items=5` (app.py lines 21-25). -/
def validateChampions : Option JVal → Except String (List String)
  | some (JVal.arr xs) =>
      match decodeStrList xs with
      | some names =>
          if names.length < 3 then
            Except.error "champions: list should have at least 3 items"
          else if 5 < names.length then
            Except.error "champions: list should have at most 5 items"
          else Except.ok names
      | none => Except.error "champions: each item should be a valid string"
  | _ => Except.error "champions: field missing or not a list"

/-- Validation of a plain string field (`reasoning`). -/
def validateStrField : Option JVal → Except String String
  | some (JVal.str s) => Except.ok s
  | _ => Except.error "reasoning: field missing or not a string"

/-- Validation of a list-of-strings field (`key_threats`), no length bound. -/
def validateStrListField : Option JVal → Except String (List String)
  | some (JVal.arr xs) =>
      match decodeStrList xs with
      | some ss => Except.ok ss
      | none => Except.error "key_threats: each item should be a valid string"
  | _ => Except.error "key_threats: field missing or not a list"

/-- Pydantic validation of a raw response against the
`ChampionRecommendations` model: every declared field must be present with
the declared type, and `champions` must respect the 3-5 length bound. -/
def validateChampionRecommendations (raw : RawResponse) :
    Except String ChampionRecommendations :=
  match validateChampions raw.champions with
  | Except.error e => Except.error e
  | Except.ok names =>
      match validateStrField raw.reasoning with
      | Except.error e => Except.error e
      | Except.ok s =>
          match validateStrListField raw.key_threats with
          | Except.error e => Except.error e
          | Except.ok ts =>
              Except.ok { champions := names, reasoning := s, key_threats := ts }

/-- A Python exception, tagged by kind: `ValueError` (missing key), an API /
transport error from the SDK, or a schema-validation error. -/
inductive PyErr : Type where
  | valueError (msg : String)
  | apiError (msg : String)
  | validationError (msg : String)

/-- Model of `str(e)`: the message carried by the exception. -/
def PyErr.message : PyErr → String
  | PyErr.valueError m => m
  | PyErr.apiError m => m
  | PyErr.validationError m => m

/-- The `response_model` argument (`Type[T]` in Python): a schema name used
in the request plus the validation it induces on the raw response. -/
structure ResponseModel (α : Type) : Type where
  name : String
  validate : RawResponse → Except String α

/-- The keyword-argument dictionary passed to
`client.beta.chat.completions.parse`.  `temperature` is optional: absent
exactly when the key is never inserted into the dict. -/
structure RequestParams : Type where
  model : String
  messages : List (String × String)
  response_format : String
  temperature : Option ℚ

/-- Python `pre + anything == s` test: `s.startswith(pre)`, at the
character-list level. -/
def pyStartswith (pre : String) (s : String) : Bool :=
  List.isPrefixOf pre.data s.data

/-- The fixed system message used by `structured_generator`. -/
def defaultSystemMessage : String :=
  "You are a helpful AI assistant that provides structured, accurate responses."

/-- Request parameters built inside `structured_generator`
(helpers.py lines 65-82): base dict, then `temperature = 0.7` added only for
models whose name does not start with "gpt-5". -/
def buildParams {α : Type} (model : String) (prompt : String)
    (rm : ResponseModel α) : RequestParams :=
  let params : RequestParams :=
    { model := model
      messages := [("system", defaultSystemMessage), ("user", prompt)]
      response_format := rm.name
      temperature := none }
  if !(pyStartswith "gpt-5" model) then
    { params with temperature := some (7 / 10) }
  else params

/-- Request parameters built inside `structured_generator_with_system_prompt`
(helpers.py lines 131-142). -/
def buildParamsWithSystemPrompt {α : Type} (model : String)
    (system_prompt : String) (user_prompt : String)
    (rm : ResponseModel α) : RequestParams :=
  let params : RequestParams :=
    { model := model
      messages := [("system", system_prompt), ("user", user_prompt)]
      response_format := rm.name
      temperature := none }
  if !(pyStartswith "gpt-5" model) then
    { params with temperature := some (7 / 10) }
  else params

/-- Process environment: the `OPENAI_API_KEY` lookup result and the network
oracle giving the external service's reply to a request (transport or
authentication failure, or a raw response body). -/
structure Env : Type where
  api_key : Option String
  netReply : RequestParams → Except String RawResponse

/-- Python truthiness of `os.getenv` results: `not api_key` is true for both
an unset variable and an empty string. -/
def isFalsy : Option String → Bool
  | none => true
  | some s => s == ""

/-- Trace of one helper call: its outcome, the number of network invocations
attempted, the number of OpenAI clients constructed, and the printed lines. -/
structure CallTrace (α : Type) : Type where
  result : Except PyErr α
  netCalls : Nat
  clientsBuilt : Nat
  printed : List String

/-- The `ValueError` message of `structured_generator` (helpers.py 49-54). -/
def keyNotFoundMessage : String :=
  "OpenAI API key not found! Please set your OPENAI_API_KEY in the .env file.\nYou can get an API key from: https://platform.openai.com/api-keys\n\nCreate a .env file in your project directory with:\nOPENAI_API_KEY=your-key-here"

/-- The `ValueError` message of `structured_generator_with_system_prompt`. -/
def keyNotFoundMessageShort : String :=
  "OPENAI_API_KEY not found in .env file!"

/-- Troubleshooting lines printed by `structured_generator`'s except block
before it re-raises (helpers.py 90-98). -/
def apiErrorTips (msg : String) (model : String) : List String :=
  ["❌ Error calling OpenAI API: " ++ msg,
   "\nTroubleshooting tips:",
   "1. Check that your API key is valid in the .env file",
   "2. Verify you have API credits available",
   "3. Ensure the model name is correct",
   "4. Model requested: " ++ model]

/-- Function `structured_generator` (helpers.py 20-98): check the key (falsy check,
`ValueError` before any client is built), construct the client, issue one
request, validate the response against the model, and on any exception print
tips and re-raise.  There is no retry: at most one network invocation. -/
def structured_generator {α : Type} (env : Env) (model : String)
    (prompt : String) (rm : ResponseModel α) : CallTrace α :=
  if isFalsy env.api_key then
    { result := Except.error (PyErr.valueError keyNotFoundMessage)
      netCalls := 0
      clientsBuilt := 0
      printed := [] }
  else
    match env.netReply (buildParams model prompt rm) with
    | Except.error msg =>
        { result := Except.error (PyErr.apiError msg)
          netCalls := 1
          clientsBuilt := 1
          printed := apiErrorTips msg model }
    | Except.ok raw =>
        match rm.validate raw with
        | Except.error msg =>
            { result := Except.error (PyErr.validationError msg)
              netCalls := 1
              clientsBuilt := 1
              printed := apiErrorTips msg model }
        | Except.ok value =>
            { result := Except.ok value
              netCalls := 1
              clientsBuilt := 1
              printed := [] }

/-- Function `structured_generator_with_system_prompt` (helpers.py 101-150): same
flow with a caller-supplied system prompt, a shorter `ValueError` message and
a shorter except-block print. -/
def structured_generator_with_system_prompt {α : Type} (env : Env)
    (model : String) (system_prompt : String) (user_prompt : String)
    (rm : ResponseModel α) : CallTrace α :=
  if isFalsy env.api_key then
    { result := Except.error (PyErr.valueError keyNotFoundMessageShort)
      netCalls := 0
      clientsBuilt := 0
      printed := [] }
  else
    match env.netReply (buildParamsWithSystemPrompt model system_prompt user_prompt rm) with
    | Except.error msg =>
        { result := Except.error (PyErr.apiError msg)
          netCalls := 1
          clientsBuilt := 1
          printed := ["❌ Error: " ++ msg] }
    | Except.ok raw =>
        match rm.validate raw with
        | Except.error msg =>
            { result := Except.error (PyErr.validationError msg)
              netCalls := 1
              clientsBuilt := 1
              printed := ["❌ Error: " ++ msg] }
        | Except.ok value =>
            { result := Except.ok value
              netCalls := 1
              clientsBuilt := 1
              printed := [] }

/-- The `ResponseModel` value `app.py` passes to the helper. -/
def ChampionRecommendationsModel : ResponseModel ChampionRecommendations :=
  { name := "ChampionRecommendations"
    validate := validateChampionRecommendations }

/-- Characters Python's `str.strip()` removes (ASCII whitespace). -/
def isPySpace (c : Char) : Bool :=
  c == ' ' || c == '\t' || c == '\n' || c == '\x0b' || c == '\x0c' || c == '\r'

/-- Python `s.strip()`: drop leading and trailing whitespace. -/
def pyStrip (s : String) : String :=
  String.mk (((s.data.dropWhile isPySpace).reverse.dropWhile isPySpace).reverse)

/-- Python `s.capitalize()` on ASCII input: first character uppercased, all
remaining characters lowercased. -/
def pyCapitalize (s : String) : String :=
  match s.data with
  | [] => String.mk []
  | c :: cs => String.mk (Char.toUpper c :: cs.map Char.toLower)

/-- Python `s.upper()` on ASCII input. -/
def pyUpper (s : String) : String :=
  String.mk (s.data.map Char.toUpper)

/-- Model of `input(...).strip() or "Unknown"`: the stripped text, or the sentinel
when the stripped text is empty (Python falsiness). -/
def orUnknown (s : String) : String :=
  if pyStrip s = "" then "Unknown" else pyStrip s

/-- The six console lines typed by the user, in prompt order. -/
structure RawInputs : Type where
  enemy_top : String
  enemy_jgl : String
  enemy_mid : String
  enemy_adc : String
  enemy_support : String
  role_input : String

/-- The dictionary returned by `get_user_input`. -/
structure UserData : Type where
  top : String
  jungle : String
  mid : String
  adc : String
  support : String
  your_role : String

/-- Function `get_user_input` (app.py 37-65): each enemy champion line is stripped and
defaulted to "Unknown" when blank; the role line is stripped and capitalized,
with no blank default. -/
def get_user_input (raw : RawInputs) : UserData :=
  { top := orUnknown raw.enemy_top
    jungle := orUnknown raw.enemy_jgl
    mid := orUnknown raw.enemy_mid
    adc := orUnknown raw.enemy_adc
    support := orUnknown raw.enemy_support
    your_role := pyCapitalize (pyStrip raw.role_input) }

/-- The `enemy_team` dictionary taken by `create_prompt`. -/
structure EnemyTeam : Type where
  top : String
  jungle : String
  mid : String
  adc : String
  support : String

/-- Fixed template text of the f-string in `create_prompt` (app.py 79-102),
split at the interpolation slots.  Segment 0 runs to the first slot. -/
def promptSeg0 : String :=
  "You are an expert League of Legends analyst specializing in champion select strategy.\n\nENEMY TEAM COMPOSITION:\n- Top: "

/-- Template text between the top slot and the jungle slot. -/
def promptSeg1 : String := "\n- Jungle: "

/-- Template text between the jungle slot and the mid slot. -/
def promptSeg2 : String := "\n- Mid: "

/-- Template text between the mid slot and the ADC slot. -/
def promptSeg3 : String := "\n- ADC: "

/-- Template text between the ADC slot and the support slot. -/
def promptSeg4 : String := "\n- Support: "

/-- Template text between the support slot and the first role slot. -/
def promptSeg5 : String := "\n\nYOUR ROLE: "

/-- Template text between the first and the second role slot. -/
def promptSeg6 : String := "\n\nTASK:\nRecommend 3-5 champions for the "

/-- Template text after the second role slot, through the end: the seven
analysis criteria and the closing instruction. -/
def promptSeg7 : String :=
  " role that counter this enemy team composition.\n\nANALYSIS CRITERIA:\n1. **Lane Matchup**: How well does the champion perform in direct lane matchups?\n2. **Damage Type**: Consider AP/AD balance (avoid same damage type as team)\n3. **Team Composition**: Does the enemy have tanks, assassins, poke, engage, disengage?\n4. **Win Conditions**: Identify what the enemy wants to do and how to stop it\n5. **Scaling**: Consider early/mid/late game power spikes\n6. **Crowd Control**: Does your team need more CC or do you need to avoid CC?\n7. **Mobility**: Can you match enemy mobility or do you need to punish immobile enemies?\n\nProvide champions that synergize well against THIS specific enemy composition, not just general strong picks."

/-- Function `create_prompt` (app.py 71-104): the f-string, as the concatenation of
the template segments with the five champion values interpolated once each
and the role interpolated at its two slots. -/
def create_prompt (enemy_team : EnemyTeam) (your_role : String) : String :=
  promptSeg0 ++ enemy_team.top ++ promptSeg1 ++ enemy_team.jungle ++
    promptSeg2 ++ enemy_team.mid ++ promptSeg3 ++ enemy_team.adc ++
    promptSeg4 ++ enemy_team.support ++ promptSeg5 ++ your_role ++
    promptSeg6 ++ your_role ++ promptSeg7

/-- All characters occurring in the fixed template text. -/
def templateChars : List Char :=
  promptSeg0.data ++ promptSeg1.data ++ promptSeg2.data ++ promptSeg3.data ++
    promptSeg4.data ++ promptSeg5.data ++ promptSeg6.data ++ promptSeg7.data

/-- Number of positions of `s` at which `p` occurs as a contiguous block. -/
def countOcc (p : List Char) : List Char → Nat
  | [] => if List.isPrefixOf p [] then 1 else 0
  | c :: s => (if List.isPrefixOf p (c :: s) then 1 else 0) + countOcc p s

/-- Occurrence count of `pat` in `s`, at the string level. -/
def countOccStr (pat : String) (s : String) : Nat :=
  countOcc pat.data s.data

/-- The "🤖 Analyzing..." line `main` prints before calling the helper. -/
def analyzingLine : String := "\n🤖 Analyzing enemy team composition...\n"

/-- The "=" * 60 separator line. -/
def sepLine : String := String.mk (List.replicate 60 '=')

/-- The remediation lines `main`'s except block prints (app.py 166-170). -/
def errorHintLines (e : PyErr) : List String :=
  ["\n❌ Error: " ++ e.message,
   "\nMake sure:",
   "1. Your .env file exists with OPENAI_API_KEY set",
   "2. You have installed required packages: pip install openai pydantic python-dotenv",
   "3. You have API credits available in your OpenAI account"]

/-- The success-path report lines (app.py 146-163). -/
def resultLines (user_data : UserData) (result : ChampionRecommendations) :
    List String :=
  [sepLine, "  RECOMMENDED CHAMPIONS FOR " ++ pyUpper user_data.your_role, sepLine] ++
    (result.champions.enum.map (fun p => toString (p.1 + 1) ++ ". " ++ p.2)) ++
    ["\n" ++ sepLine, "  KEY THREATS TO WATCH", sepLine] ++
    (result.key_threats.map (fun t => "⚠️  " ++ t)) ++
    ["\n" ++ sepLine, "  REASONING", sepLine, result.reasoning, sepLine]

/-- The prompt `main` builds from the collected inputs (app.py 120-132). -/
def mainPrompt (raw : RawInputs) : String :=
  create_prompt
    { top := (get_user_input raw).top
      jungle := (get_user_input raw).jungle
      mid := (get_user_input raw).mid
      adc := (get_user_input raw).adc
      support := (get_user_input raw).support }
    (get_user_input raw).your_role

/-- Function `main` (app.py 110-170) as the list of lines printed after input
collection: the analyzing banner, whatever the helper printed, then either
the formatted report or the error message with remediation hints. -/
def app_main (env : Env) (raw : RawInputs) : List String :=
  let t := structured_generator env "gpt-5" (mainPrompt raw) ChampionRecommendationsModel
  [analyzingLine] ++ t.printed ++
    match t.result with
    | Except.ok result => resultLines (get_user_input raw) result
    | Except.error e => errorHintLines e

/-- A well-formed response with exactly 3 champion names. -/
def rawResponse3 : RawResponse :=
  { champions := some (JVal.arr
      [JVal.str "Malphite", JVal.str "Kassadin", JVal.str "Lissandra"])
    reasoning := some (JVal.str "they all punish melee assassins")
    key_threats := some (JVal.arr [JVal.str "Zed roam pressure"]) }
/-- A well-formed response with 6 champion names, one over the bound. -/
def rawResponse6 : RawResponse :=
  { champions := some (JVal.arr
      [JVal.str "Malphite", JVal.str "Kassadin", JVal.str "Lissandra",
        JVal.str "Galio", JVal.str "Vex", JVal.str "Annie"])
    reasoning := some (JVal.str "they all punish melee assassins")
    key_threats := some (JVal.arr [JVal.str "Zed roam pressure"]) }
/-- The seven evaluation-criteria names of the prompt template. -/
def criteriaList : List String :=
  ["Lane Matchup", "Damage Type", "Team Composition", "Win Conditions",
    "Scaling", "Crowd Control", "Mobility"]
/-- A run with every console line left blank. -/
def blankInputs : RawInputs :=
  { enemy_top := "", enemy_jgl := "", enemy_mid := "", enemy_adc := "",
    enemy_support := "", role_input := "" }
/-- A run with a full enemy team and the role typed as "ADC". -/
def rawADC : RawInputs :=
  { enemy_top := "Aatrox", enemy_jgl := "Elise", enemy_mid := "Ahri",
    enemy_adc := "Jinx", enemy_support := "Thresh", role_input := "ADC" }
/-- An environment with no API key configured. -/
def envNoKey : Env :=
  { api_key := none, netReply := fun _ => Except.error "unreachable" }
/-- The prompt built from six single-character inputs, used to count how
often each input value occurs in the rendered prompt. -/
def singletonPrompt (c1 c2 c3 c4 c5 c6 : Char) : String :=
  create_prompt
    { top := String.mk [c1], jungle := String.mk [c2], mid := String.mk [c3],
      adc := String.mk [c4], support := String.mk [c5] }
    (String.mk [c6])

/-! ## Helper lemmas -/

/-- String concatenation concatenates the underlying character lists. -/
theorem data_append (s t : String) : (s ++ t).data = s.data ++ t.data := by
  cases s
  cases t
  rfl

/-- Counting occurrences of a one-character pattern is character counting. -/
theorem countOcc_single (c : Char) (s : List Char) : countOcc [c] s = s.count c := by
  induction s with
  | nil => rfl
  | cons a t ih =>
      simp only [countOcc, List.isPrefixOf, Bool.and_true, List.count_cons, ih]
      by_cases h : a = c
      · simp [h, beq_iff_eq]
        omega
      · have h2 : (c == a) = false := by
          simp [beq_iff_eq]
          exact fun e => h e.symm
        simp [h2, h]

/-- The rendered prompt, at the character-list level: template segments with
the five champion slots and the two role slots. -/
theorem create_prompt_data (t : EnemyTeam) (r : String) :
    (create_prompt t r).data =
      promptSeg0.data ++ t.top.data ++ promptSeg1.data ++ t.jungle.data ++
        promptSeg2.data ++ t.mid.data ++ promptSeg3.data ++ t.adc.data ++
        promptSeg4.data ++ t.support.data ++ promptSeg5.data ++ r.data ++
        promptSeg6.data ++ r.data ++ promptSeg7.data := by
  simp [create_prompt, data_append]

/-- A character that occurs in no template segment has count zero in each. -/
theorem count_seg_zero (c : Char) (h : c ∉ templateChars) :
    promptSeg0.data.count c = 0 ∧ promptSeg1.data.count c = 0 ∧
      promptSeg2.data.count c = 0 ∧ promptSeg3.data.count c = 0 ∧
      promptSeg4.data.count c = 0 ∧ promptSeg5.data.count c = 0 ∧
      promptSeg6.data.count c = 0 ∧ promptSeg7.data.count c = 0 := by
  simp only [templateChars, List.mem_append, not_or] at h
  obtain ⟨⟨⟨⟨⟨⟨⟨h0, h1⟩, h2⟩, h3⟩, h4⟩, h5⟩, h6⟩, h7⟩ := h
  exact ⟨List.count_eq_zero.mpr h0, List.count_eq_zero.mpr h1,
    List.count_eq_zero.mpr h2, List.count_eq_zero.mpr h3,
    List.count_eq_zero.mpr h4, List.count_eq_zero.mpr h5,
    List.count_eq_zero.mpr h6, List.count_eq_zero.mpr h7⟩

/-- Decoding a list built from strings recovers exactly those strings. -/
theorem decodeStrList_map (names : List String) :
    decodeStrList (names.map JVal.str) = some names := by
  induction names with
  | nil => rfl
  | cons n rest ih => simp [decodeStrList, ih]

/-- A successfully decoded list was a list of string values. -/
theorem decodeStrList_some (xs : List JVal) (names : List String)
    (h : decodeStrList xs = some names) : xs = names.map JVal.str := by
  induction xs generalizing names with
  | nil =>
      simp only [decodeStrList, Option.some.injEq] at h
      subst h
      rfl
  | cons x rest ih =>
      cases x with
      | str s =>
          simp only [decodeStrList] at h
          cases hr : decodeStrList rest with
          | none => rw [hr] at h; exact absurd h (by simp)
          | some ss =>
              rw [hr] at h
              simp only [Option.some.injEq] at h
              subst h
              simp [ih ss hr]
      | num n => exact absurd h (by simp [decodeStrList])
      | arr ys => exact absurd h (by simp [decodeStrList])

/-- The champions field validates to `names` exactly when it is present as a
list of those strings and the 3-5 bound holds. -/
theorem validateChampions_ok_iff (j : Option JVal) (names : List String) :
    validateChampions j = Except.ok names ↔
      (j = some (JVal.arr (names.map JVal.str)) ∧
        3 ≤ names.length ∧ names.length ≤ 5) := by
  constructor
  · intro h
    cases j with
    | none => exact absurd h (by simp [validateChampions])
    | some v =>
        cases v with
        | str s => exact absurd h (by simp [validateChampions])
        | num n => exact absurd h (by simp [validateChampions])
        | arr xs =>
            simp only [validateChampions] at h
            cases hd : decodeStrList xs with
            | none => rw [hd] at h; exact absurd h (by simp)
            | some ns =>
                rw [hd] at h
                have h' :
                    (if ns.length < 3 then
                        (Except.error "champions: list should have at least 3 items" :
                          Except String (List String))
                      else if 5 < ns.length then
                        Except.error "champions: list should have at most 5 items"
                      else Except.ok ns) = Except.ok names := h
                by_cases h3 : ns.length < 3
                · rw [if_pos h3] at h'
                  exact absurd h' (by simp)
                · rw [if_neg h3] at h'
                  by_cases h5 : 5 < ns.length
                  · rw [if_pos h5] at h'
                    exact absurd h' (by simp)
                  · rw [if_neg h5] at h'
                    simp only [Except.ok.injEq] at h'
                    subst h'
                    refine ⟨?_, by omega, by omega⟩
                    rw [decodeStrList_some xs ns hd]
  · rintro ⟨rfl, h3, h5⟩
    simp only [validateChampions, decodeStrList_map]
    rw [if_neg (by omega), if_neg (by omega)]

/-- The reasoning field validates exactly when it is a present string. -/
theorem validateStrField_ok_iff (j : Option JVal) (s : String) :
    validateStrField j = Except.ok s ↔ j = some (JVal.str s) := by
  cases j with
  | none => simp [validateStrField]
  | some v => cases v <;> simp [validateStrField]

/-- The key_threats field validates exactly when it is a present list of
strings. -/
theorem validateStrListField_ok_iff (j : Option JVal) (ts : List String) :
    validateStrListField j = Except.ok ts ↔
      j = some (JVal.arr (ts.map JVal.str)) := by
  cases j with
  | none => simp [validateStrListField]
  | some v =>
      cases v with
      | str s => simp [validateStrListField]
      | num n => simp [validateStrListField]
      | arr xs =>
          simp only [validateStrListField]
          cases hd : decodeStrList xs with
          | none =>
              simp only [Option.some.injEq, JVal.arr.injEq]
              constructor
              · intro h; exact absurd h (by simp)
              · intro h
                rw [h, decodeStrList_map] at hd
                exact absurd hd (by simp)
          | some ss =>
              simp only [Option.some.injEq, JVal.arr.injEq, Except.ok.injEq]
              constructor
              · rintro rfl
                rw [decodeStrList_some xs ss hd]
              · intro h
                rw [h, decodeStrList_map] at hd
                simp only [Option.some.injEq] at hd
                exact hd.symm

/-- Whole-model validation succeeds exactly when all three field validations
succeed with the corresponding field values. -/
theorem validateCR_ok_iff (raw : RawResponse) (v : ChampionRecommendations) :
    validateChampionRecommendations raw = Except.ok v ↔
      (validateChampions raw.champions = Except.ok v.champions ∧
        validateStrField raw.reasoning = Except.ok v.reasoning ∧
        validateStrListField raw.key_threats = Except.ok v.key_threats) := by
  obtain ⟨vc, vr, vk⟩ := v
  simp only [validateChampionRecommendations]
  cases h1 : validateChampions raw.champions with
  | error e => simp
  | ok names =>
      cases h2 : validateStrField raw.reasoning with
      | error e => simp
      | ok s =>
          cases h3 : validateStrListField raw.key_threats with
          | error e => simp
          | ok ts =>
              simp only [Except.ok.injEq, ChampionRecommendations.mk.injEq]

/-- C1: a service response parses into a `ChampionRecommendations` value
exactly when its `champions` field is a list of 3-5 strings and the
`reasoning` and `key_threats` fields are present with their declared types;
when it parses, the champions count equals the count in the response. -/
theorem champion_schema_validation (raw : RawResponse) :
    ((∃ v, validateChampionRecommendations raw = Except.ok v) ↔
      ((∃ names : List String,
          raw.champions = some (JVal.arr (names.map JVal.str)) ∧
          3 ≤ names.length ∧ names.length ≤ 5) ∧
        (∃ s, raw.reasoning = some (JVal.str s)) ∧
        (∃ ts : List String,
          raw.key_threats = some (JVal.arr (ts.map JVal.str))))) ∧
    (∀ (names : List String) (v : ChampionRecommendations),
      raw.champions = some (JVal.arr (names.map JVal.str)) →
      validateChampionRecommendations raw = Except.ok v →
      v.champions.length = names.length) := by
  have hinj : Function.Injective JVal.str := fun a b hab => by injection hab
  constructor
  · constructor
    · rintro ⟨v, hv⟩
      rw [validateCR_ok_iff] at hv
      obtain ⟨h1, h2, h3⟩ := hv
      rw [validateChampions_ok_iff] at h1
      rw [validateStrField_ok_iff] at h2
      rw [validateStrListField_ok_iff] at h3
      exact ⟨⟨v.champions, h1.1, h1.2.1, h1.2.2⟩, ⟨v.reasoning, h2⟩,
        ⟨v.key_threats, h3⟩⟩
    · rintro ⟨⟨names, hch, h3, h5⟩, ⟨s, hre⟩, ⟨ts, hkt⟩⟩
      refine ⟨⟨names, s, ts⟩, ?_⟩
      rw [validateCR_ok_iff]
      exact ⟨(validateChampions_ok_iff _ _).mpr ⟨hch, h3, h5⟩,
        (validateStrField_ok_iff _ _).mpr hre,
        (validateStrListField_ok_iff _ _).mpr hkt⟩
  · intro names v hch hv
    rw [validateCR_ok_iff] at hv
    have h1 := (validateChampions_ok_iff _ _).mp hv.1
    rw [hch] at h1
    have he : names.map JVal.str = v.champions.map JVal.str := by
      have := h1.1
      simp only [Option.some.injEq, JVal.arr.injEq] at this
      exact this
    have heq : names = v.champions := List.map_injective_iff.mpr hinj he
    rw [heq]



/-- C1 witness: a 3-name response parses with count 3, a 6-name response is
rejected. -/
theorem champion_schema_validation_witness :
    (∃ v, validateChampionRecommendations rawResponse3 = Except.ok v) ∧
    (∀ v, validateChampionRecommendations rawResponse3 = Except.ok v →
      v.champions.length = 3) ∧
    ¬ (∃ v, validateChampionRecommendations rawResponse6 = Except.ok v) := by
  refine ⟨?_, ?_, ?_⟩
  · exact (champion_schema_validation rawResponse3).1.mpr
      ⟨⟨["Malphite", "Kassadin", "Lissandra"], rfl, by decide, by decide⟩,
        ⟨"they all punish melee assassins", rfl⟩, ⟨["Zed roam pressure"], rfl⟩⟩
  · intro v hv
    exact (champion_schema_validation rawResponse3).2
      ["Malphite", "Kassadin", "Lissandra"] v rfl hv
  · intro hex
    obtain ⟨⟨names, hch, h3, h5⟩, _, _⟩ :=
      (champion_schema_validation rawResponse6).1.mp hex
    have he : names.map JVal.str =
        [JVal.str "Malphite", JVal.str "Kassadin", JVal.str "Lissandra",
          JVal.str "Galio", JVal.str "Vex", JVal.str "Annie"] := by
      have := hch
      simp only [rawResponse6, Option.some.injEq, JVal.arr.injEq] at this
      exact this.symm
    have hlen : names.length = 6 := by
      have := congrArg List.length he
      simpa using this
    omega

/-- C2: the request parameters omit `temperature` exactly for model
identifiers starting with "gpt-5", and include it at the fixed default 0.7
for every other identifier, in both helper functions. -/
theorem temperature_parameter {α : Type} (model : String) (prompt : String)
    (system_prompt : String) (user_prompt : String) (rm : ResponseModel α) :
    ((buildParams model prompt rm).temperature = none ↔
      pyStartswith "gpt-5" model = true) ∧
    (pyStartswith "gpt-5" model = false →
      (buildParams model prompt rm).temperature = some (7 / 10)) ∧
    ((buildParamsWithSystemPrompt model system_prompt user_prompt rm).temperature = none ↔
      pyStartswith "gpt-5" model = true) ∧
    (pyStartswith "gpt-5" model = false →
      (buildParamsWithSystemPrompt model system_prompt user_prompt rm).temperature = some (7 / 10)) := by
  cases h : pyStartswith "gpt-5" model <;>
    simp [buildParams, buildParamsWithSystemPrompt, h]

/-- C2 witness: "gpt-5" omits temperature; "gpt-4-turbo" gets 0.7. -/
theorem temperature_parameter_witness :
    (buildParams "gpt-5" "pick" ChampionRecommendationsModel).temperature = none ∧
    (buildParams "gpt-4-turbo" "pick" ChampionRecommendationsModel).temperature = some (7 / 10) ∧
    (buildParamsWithSystemPrompt "gpt-4-turbo" "sys" "user" ChampionRecommendationsModel).temperature = some (7 / 10) := by
  refine ⟨?_, ?_, ?_⟩
  · exact (temperature_parameter "gpt-5" "pick" "sys" "user"
      ChampionRecommendationsModel).1.mpr (by decide)
  · exact (temperature_parameter "gpt-4-turbo" "pick" "sys" "user"
      ChampionRecommendationsModel).2.1 (by decide)
  · exact (temperature_parameter "gpt-4-turbo" "pick" "sys" "user"
      ChampionRecommendationsModel).2.2.2 (by decide)

/-- C3: with the credential absent from the environment the call raises the
`ValueError` and performs zero network invocations. -/
theorem missing_credential_no_network {α : Type} (env : Env) (model : String)
    (prompt : String) (rm : ResponseModel α) (h : env.api_key = none) :
    (structured_generator env model prompt rm).result =
      Except.error (PyErr.valueError keyNotFoundMessage) ∧
    (structured_generator env model prompt rm).netCalls = 0 := by
  simp [structured_generator, isFalsy, h]

/-- C3 witness: a concrete environment with no key raises before the network
oracle is ever consulted. -/
theorem missing_credential_no_network_witness :
    (structured_generator
        { api_key := none, netReply := fun _ => Except.error "connection refused" }
        "gpt-5" "counter-pick" ChampionRecommendationsModel).result =
      Except.error (PyErr.valueError keyNotFoundMessage) ∧
    (structured_generator
        { api_key := none, netReply := fun _ => Except.error "connection refused" }
        "gpt-5" "counter-pick" ChampionRecommendationsModel).netCalls = 0 :=
  missing_credential_no_network _ "gpt-5" "counter-pick"
    ChampionRecommendationsModel rfl

/-- C6: a transport or authentication failure from the service propagates as
a single error carrying the underlying message, with exactly one network
invocation (no retry). -/
theorem transport_error_single_attempt {α : Type} (env : Env) (model : String)
    (prompt : String) (rm : ResponseModel α) (msg : String)
    (hkey : isFalsy env.api_key = false)
    (hnet : env.netReply (buildParams model prompt rm) = Except.error msg) :
    (structured_generator env model prompt rm).result =
      Except.error (PyErr.apiError msg) ∧
    (PyErr.apiError msg).message = msg ∧
    (structured_generator env model prompt rm).netCalls = 1 := by
  simp [structured_generator, hkey, hnet, PyErr.message]

/-- C6 witness: a concrete failing transport gives one attempt and the
underlying message. -/
theorem transport_error_single_attempt_witness :
    (structured_generator
        { api_key := some "sk-test", netReply := fun _ => Except.error "401 invalid api key" }
        "gpt-5" "counter-pick" ChampionRecommendationsModel).result =
      Except.error (PyErr.apiError "401 invalid api key") ∧
    (PyErr.apiError "401 invalid api key").message = "401 invalid api key" ∧
    (structured_generator
        { api_key := some "sk-test", netReply := fun _ => Except.error "401 invalid api key" }
        "gpt-5" "counter-pick" ChampionRecommendationsModel).netCalls = 1 :=
  transport_error_single_attempt _ "gpt-5" "counter-pick"
    ChampionRecommendationsModel "401 invalid api key" (by decide) rfl

/-- C10: an empty-string key is treated exactly like an absent one (the
check is falsiness), and both helpers raise a `ValueError` whose message
names the `.env` file, with no network call and no client constructed. -/
theorem empty_key_value_error {α : Type} (env : Env) (model : String)
    (prompt : String) (system_prompt : String) (user_prompt : String)
    (rm : ResponseModel α)
    (h : env.api_key = none ∨ env.api_key = some "") :
    ((structured_generator env model prompt rm).result =
        Except.error (PyErr.valueError keyNotFoundMessage) ∧
      (structured_generator env model prompt rm).netCalls = 0 ∧
      (structured_generator env model prompt rm).clientsBuilt = 0) ∧
    ((structured_generator_with_system_prompt env model system_prompt user_prompt rm).result =
        Except.error (PyErr.valueError keyNotFoundMessageShort) ∧
      (structured_generator_with_system_prompt env model system_prompt user_prompt rm).netCalls = 0 ∧
      (structured_generator_with_system_prompt env model system_prompt user_prompt rm).clientsBuilt = 0) ∧
    List.IsInfix (".env" : String).data keyNotFoundMessage.data ∧
    List.IsInfix (".env" : String).data keyNotFoundMessageShort.data := by
  have hf : isFalsy env.api_key = true := by
    rcases h with h | h <;> simp [isFalsy, h]
  refine ⟨?_, ?_, by decide, by decide⟩ <;>
    simp [structured_generator, structured_generator_with_system_prompt, hf]

/-- C10 witness: the empty-string key hits the same `ValueError` path. -/
theorem empty_key_value_error_witness :
    ((structured_generator
        { api_key := some "", netReply := fun _ => Except.error "unreachable" }
        "gpt-5" "counter-pick" ChampionRecommendationsModel).result =
      Except.error (PyErr.valueError keyNotFoundMessage) ∧
      (structured_generator
        { api_key := some "", netReply := fun _ => Except.error "unreachable" }
        "gpt-5" "counter-pick" ChampionRecommendationsModel).netCalls = 0 ∧
      (structured_generator
        { api_key := some "", netReply := fun _ => Except.error "unreachable" }
        "gpt-5" "counter-pick" ChampionRecommendationsModel).clientsBuilt = 0) ∧
    ((structured_generator_with_system_prompt
        { api_key := some "", netReply := fun _ => Except.error "unreachable" }
        "gpt-5" "sys" "user" ChampionRecommendationsModel).result =
      Except.error (PyErr.valueError keyNotFoundMessageShort) ∧
      (structured_generator_with_system_prompt
        { api_key := some "", netReply := fun _ => Except.error "unreachable" }
        "gpt-5" "sys" "user" ChampionRecommendationsModel).netCalls = 0 ∧
      (structured_generator_with_system_prompt
        { api_key := some "", netReply := fun _ => Except.error "unreachable" }
        "gpt-5" "sys" "user" ChampionRecommendationsModel).clientsBuilt = 0) ∧
    List.IsInfix (".env" : String).data keyNotFoundMessage.data ∧
    List.IsInfix (".env" : String).data keyNotFoundMessageShort.data :=
  empty_key_value_error _ "gpt-5" "counter-pick" "sys" "user"
    ChampionRecommendationsModel (Or.inr rfl)

/-- Wrapping a character list in `String.mk` changes nothing. -/
theorem data_mk (l : List Char) : (String.mk l).data = l := rfl

/-- A string whose character list is empty is the empty string. -/
theorem data_nil_eq_empty (s : String) (h : s.data = []) : s = "" := by
  cases s
  exact congrArg String.mk h






/-- C4 counterexample: with every input blank, the stored target role is the
empty string — it is left empty, with no default applied. -/
theorem blank_role_not_defaulted :
    (get_user_input blankInputs).your_role = "" ∧
    (get_user_input blankInputs).your_role ≠ "Unknown" := by
  constructor
  · rfl
  · decide

/-- C4 (amended): blank enemy-champion inputs each default to the "Unknown"
sentinel, but a blank target role is stored as the empty string. -/
theorem get_user_input_blank_defaults (raw : RawInputs)
    (h1 : pyStrip raw.enemy_top = "") (h2 : pyStrip raw.enemy_jgl = "")
    (h3 : pyStrip raw.enemy_mid = "") (h4 : pyStrip raw.enemy_adc = "")
    (h5 : pyStrip raw.enemy_support = "") :
    (get_user_input raw).top = "Unknown" ∧
    (get_user_input raw).jungle = "Unknown" ∧
    (get_user_input raw).mid = "Unknown" ∧
    (get_user_input raw).adc = "Unknown" ∧
    (get_user_input raw).support = "Unknown" ∧
    (pyStrip raw.role_input = "" → (get_user_input raw).your_role = "") := by
  refine ⟨?_, ?_, ?_, ?_, ?_, fun h6 => ?_⟩
  · simp [get_user_input, orUnknown, h1]
  · simp [get_user_input, orUnknown, h2]
  · simp [get_user_input, orUnknown, h3]
  · simp [get_user_input, orUnknown, h4]
  · simp [get_user_input, orUnknown, h5]
  · show pyCapitalize (pyStrip raw.role_input) = ""
    rw [h6]
    rfl

/-- C4 witness: the all-blank run hits every default. -/
theorem get_user_input_blank_defaults_witness :
    (get_user_input blankInputs).top = "Unknown" ∧
    (get_user_input blankInputs).jungle = "Unknown" ∧
    (get_user_input blankInputs).mid = "Unknown" ∧
    (get_user_input blankInputs).adc = "Unknown" ∧
    (get_user_input blankInputs).support = "Unknown" ∧
    (pyStrip blankInputs.role_input = "" →
      (get_user_input blankInputs).your_role = "") :=
  get_user_input_blank_defaults blankInputs rfl rfl rfl rfl rfl

/-- C9: a non-blank role input is stored capitalized — first character
uppercased, all remaining characters lowercased — and the prompt is built
from that capitalized form, not the exact input. -/
theorem role_capitalized (raw : RawInputs) (h : pyStrip raw.role_input ≠ "") :
    (get_user_input raw).your_role = pyCapitalize (pyStrip raw.role_input) ∧
    (∃ c cs, (pyStrip raw.role_input).data = c :: cs ∧
      ((get_user_input raw).your_role).data =
        Char.toUpper c :: cs.map Char.toLower) ∧
    mainPrompt raw =
      create_prompt
        { top := (get_user_input raw).top
          jungle := (get_user_input raw).jungle
          mid := (get_user_input raw).mid
          adc := (get_user_input raw).adc
          support := (get_user_input raw).support }
        (pyCapitalize (pyStrip raw.role_input)) := by
  refine ⟨rfl, ?_, rfl⟩
  cases hs : (pyStrip raw.role_input).data with
  | nil => exact absurd (data_nil_eq_empty _ hs) h
  | cons c cs =>
      refine ⟨c, cs, rfl, ?_⟩
      show (pyCapitalize (pyStrip raw.role_input)).data = _
      simp [pyCapitalize, hs]

/-- C9 witness: input "ADC" is stored as "Adc". -/
theorem role_capitalized_witness :
    (get_user_input rawADC).your_role = "Adc" := by
  have h := (role_capitalized rawADC (by decide)).1
  rw [h]
  decide

/-- C7: `create_prompt` is deterministic — equal inputs give equal output —
and its output always embeds each of the seven evaluation criteria. -/
theorem create_prompt_deterministic_criteria (t1 t2 : EnemyTeam)
    (r1 r2 : String) (ht : t1 = t2) (hr : r1 = r2) :
    create_prompt t1 r1 = create_prompt t2 r2 ∧
    (∀ crit ∈ criteriaList,
      List.IsInfix crit.data (create_prompt t1 r1).data) := by
  subst ht
  subst hr
  refine ⟨rfl, ?_⟩
  intro crit hcrit
  have hseg : List.IsInfix crit.data promptSeg7.data := by
    fin_cases hcrit <;> decide
  have hsuf : List.IsInfix promptSeg7.data (create_prompt t1 r1).data := by
    refine ⟨promptSeg0.data ++ t1.top.data ++ promptSeg1.data ++
      t1.jungle.data ++ promptSeg2.data ++ t1.mid.data ++ promptSeg3.data ++
      t1.adc.data ++ promptSeg4.data ++ t1.support.data ++ promptSeg5.data ++
      r1.data ++ promptSeg6.data ++ r1.data, [], ?_⟩
    simp [create_prompt_data]
  exact hseg.trans hsuf

/-- C7 witness: at a concrete team the prompt embeds "Lane Matchup". -/
theorem create_prompt_deterministic_criteria_witness :
    create_prompt
        { top := "Aatrox", jungle := "Elise", mid := "Ahri", adc := "Jinx",
          support := "Thresh" } "Mid" =
      create_prompt
        { top := "Aatrox", jungle := "Elise", mid := "Ahri", adc := "Jinx",
          support := "Thresh" } "Mid" ∧
    List.IsInfix ("Lane Matchup" : String).data
      (create_prompt
        { top := "Aatrox", jungle := "Elise", mid := "Ahri", adc := "Jinx",
          support := "Thresh" } "Mid").data :=
  ⟨(create_prompt_deterministic_criteria _ _ _ _ rfl rfl).1,
    (create_prompt_deterministic_criteria _ _ "Mid" "Mid" rfl rfl).2
      "Lane Matchup" (by simp [criteriaList])⟩

/-- One-element list counting: a character counts once in its own singleton. -/
theorem count_singleton_self (c : Char) : ([c] : List Char).count c = 1 := by
  simp

/-- One-element list counting: a different character counts zero. -/
theorem count_singleton_ne (a b : Char) (h : a ≠ b) :
    ([b] : List Char).count a = 0 := by
  rw [List.count_eq_zero]
  simp [h]

/-- How often a template-fresh character occurs in the prompt built from
single-character inputs: once per champion slot holding it, twice per role
slot holding it. -/
theorem count_singletonPrompt (c x1 x2 x3 x4 x5 x6 : Char)
    (hc : c ∉ templateChars) :
    ((singletonPrompt x1 x2 x3 x4 x5 x6).data).count c =
      ([x1] : List Char).count c + ([x2] : List Char).count c +
        ([x3] : List Char).count c + ([x4] : List Char).count c +
        ([x5] : List Char).count c + 2 * ([x6] : List Char).count c := by
  obtain ⟨z0, z1, z2, z3, z4, z5, z6, z7⟩ := count_seg_zero c hc
  rw [show (singletonPrompt x1 x2 x3 x4 x5 x6).data =
      promptSeg0.data ++ [x1] ++ promptSeg1.data ++ [x2] ++
        promptSeg2.data ++ [x3] ++ promptSeg3.data ++ [x4] ++
        promptSeg4.data ++ [x5] ++ promptSeg5.data ++ [x6] ++
        promptSeg6.data ++ [x6] ++ promptSeg7.data from
    create_prompt_data _ _]
  simp only [List.count_append, z0, z1, z2, z3, z4, z5, z6, z7]
  omega

/-- C5 counterexample: with champion values Aatrox, Elise, Ahri, Jinx,
Thresh and role value "Zed", the rendered prompt contains the supplied role
value twice, not exactly once. -/
theorem role_value_occurs_twice :
    countOccStr "Zed"
        (create_prompt
          { top := "Aatrox", jungle := "Elise", mid := "Ahri", adc := "Jinx",
            support := "Thresh" } "Zed") = 2 ∧
    ¬ (countOccStr "Zed"
        (create_prompt
          { top := "Aatrox", jungle := "Elise", mid := "Ahri", adc := "Jinx",
            support := "Thresh" } "Zed") = 1) := by
  have h2 : countOccStr "Zed"
      (create_prompt
        { top := "Aatrox", jungle := "Elise", mid := "Ahri", adc := "Jinx",
          support := "Thresh" } "Zed") = 2 := by decide
  exact ⟨h2, by omega⟩

/-- C5 (amended): for distinct supplied values that occur nowhere in the
fixed template (here: distinct template-fresh single characters), the
rendered prompt contains each of the five champion values verbatim exactly
once and the supplied target-role value verbatim exactly twice. -/
theorem prompt_occurrence_counts (c1 c2 c3 c4 c5 c6 : Char)
    (hfresh : ∀ c ∈ ([c1, c2, c3, c4, c5, c6] : List Char), c ∉ templateChars)
    (hnodup : ([c1, c2, c3, c4, c5, c6] : List Char).Nodup) :
    countOccStr (String.mk [c1]) (singletonPrompt c1 c2 c3 c4 c5 c6) = 1 ∧
    countOccStr (String.mk [c2]) (singletonPrompt c1 c2 c3 c4 c5 c6) = 1 ∧
    countOccStr (String.mk [c3]) (singletonPrompt c1 c2 c3 c4 c5 c6) = 1 ∧
    countOccStr (String.mk [c4]) (singletonPrompt c1 c2 c3 c4 c5 c6) = 1 ∧
    countOccStr (String.mk [c5]) (singletonPrompt c1 c2 c3 c4 c5 c6) = 1 ∧
    countOccStr (String.mk [c6]) (singletonPrompt c1 c2 c3 c4 c5 c6) = 2 := by
  simp only [List.nodup_cons, List.mem_cons, List.mem_singleton, not_or,
    List.nodup_nil, List.not_mem_nil, and_true] at hnodup
  obtain ⟨⟨h12, h13, h14, h15, h16⟩, ⟨h23, h24, h25, h26⟩,
    ⟨h34, h35, h36⟩, ⟨h45, h46⟩, h56⟩ := hnodup
  obtain ⟨h16, -⟩ := h16
  obtain ⟨h26, -⟩ := h26
  obtain ⟨h36, -⟩ := h36
  obtain ⟨h46, -⟩ := h46
  obtain ⟨⟨h56, -⟩, -⟩ := h56
  have m1 : c1 ∉ templateChars := hfresh c1 (by simp)
  have m2 : c2 ∉ templateChars := hfresh c2 (by simp)
  have m3 : c3 ∉ templateChars := hfresh c3 (by simp)
  have m4 : c4 ∉ templateChars := hfresh c4 (by simp)
  have m5 : c5 ∉ templateChars := hfresh c5 (by simp)
  have m6 : c6 ∉ templateChars := hfresh c6 (by simp)
  refine ⟨?_, ?_, ?_, ?_, ?_, ?_⟩
  · rw [show countOccStr (String.mk [c1]) (singletonPrompt c1 c2 c3 c4 c5 c6) =
        ((singletonPrompt c1 c2 c3 c4 c5 c6).data).count c1 from
      countOcc_single c1 _, count_singletonPrompt c1 c1 c2 c3 c4 c5 c6 m1,
      count_singleton_self, count_singleton_ne c1 c2 h12,
      count_singleton_ne c1 c3 h13, count_singleton_ne c1 c4 h14,
      count_singleton_ne c1 c5 h15, count_singleton_ne c1 c6 h16]
  · rw [show countOccStr (String.mk [c2]) (singletonPrompt c1 c2 c3 c4 c5 c6) =
        ((singletonPrompt c1 c2 c3 c4 c5 c6).data).count c2 from
      countOcc_single c2 _, count_singletonPrompt c2 c1 c2 c3 c4 c5 c6 m2,
      count_singleton_self, count_singleton_ne c2 c1 (Ne.symm h12),
      count_singleton_ne c2 c3 h23, count_singleton_ne c2 c4 h24,
      count_singleton_ne c2 c5 h25, count_singleton_ne c2 c6 h26]
  · rw [show countOccStr (String.mk [c3]) (singletonPrompt c1 c2 c3 c4 c5 c6) =
        ((singletonPrompt c1 c2 c3 c4 c5 c6).data).count c3 from
      countOcc_single c3 _, count_singletonPrompt c3 c1 c2 c3 c4 c5 c6 m3,
      count_singleton_self, count_singleton_ne c3 c1 (Ne.symm h13),
      count_singleton_ne c3 c2 (Ne.symm h23), count_singleton_ne c3 c4 h34,
      count_singleton_ne c3 c5 h35, count_singleton_ne c3 c6 h36]
  · rw [show countOccStr (String.mk [c4]) (singletonPrompt c1 c2 c3 c4 c5 c6) =
        ((singletonPrompt c1 c2 c3 c4 c5 c6).data).count c4 from
      countOcc_single c4 _, count_singletonPrompt c4 c1 c2 c3 c4 c5 c6 m4,
      count_singleton_self, count_singleton_ne c4 c1 (Ne.symm h14),
      count_singleton_ne c4 c2 (Ne.symm h24),
      count_singleton_ne c4 c3 (Ne.symm h34), count_singleton_ne c4 c5 h45,
      count_singleton_ne c4 c6 h46]
  · rw [show countOccStr (String.mk [c5]) (singletonPrompt c1 c2 c3 c4 c5 c6) =
        ((singletonPrompt c1 c2 c3 c4 c5 c6).data).count c5 from
      countOcc_single c5 _, count_singletonPrompt c5 c1 c2 c3 c4 c5 c6 m5,
      count_singleton_self, count_singleton_ne c5 c1 (Ne.symm h15),
      count_singleton_ne c5 c2 (Ne.symm h25),
      count_singleton_ne c5 c3 (Ne.symm h35),
      count_singleton_ne c5 c4 (Ne.symm h45), count_singleton_ne c5 c6 h56]
  · rw [show countOccStr (String.mk [c6]) (singletonPrompt c1 c2 c3 c4 c5 c6) =
        ((singletonPrompt c1 c2 c3 c4 c5 c6).data).count c6 from
      countOcc_single c6 _, count_singletonPrompt c6 c1 c2 c3 c4 c5 c6 m6,
      count_singleton_self, count_singleton_ne c6 c1 (Ne.symm h16),
      count_singleton_ne c6 c2 (Ne.symm h26),
      count_singleton_ne c6 c3 (Ne.symm h36),
      count_singleton_ne c6 c4 (Ne.symm h46),
      count_singleton_ne c6 c5 (Ne.symm h56)]

/-- C5 witness: six concrete fresh characters hit the 1,1,1,1,1,2 counts. -/
theorem prompt_occurrence_counts_witness :
    countOccStr (String.mk ['~']) (singletonPrompt '~' '@' '#' '$' '%' '|') = 1 ∧
    countOccStr (String.mk ['@']) (singletonPrompt '~' '@' '#' '$' '%' '|') = 1 ∧
    countOccStr (String.mk ['#']) (singletonPrompt '~' '@' '#' '$' '%' '|') = 1 ∧
    countOccStr (String.mk ['$']) (singletonPrompt '~' '@' '#' '$' '%' '|') = 1 ∧
    countOccStr (String.mk ['%']) (singletonPrompt '~' '@' '#' '$' '%' '|') = 1 ∧
    countOccStr (String.mk ['|']) (singletonPrompt '~' '@' '#' '$' '%' '|') = 2 :=
  prompt_occurrence_counts '~' '@' '#' '$' '%' '|' (by decide) (by decide)

/-- C8: whenever the helper call inside `main` fails — missing credential,
transport failure or schema-validation failure — the error is printed with
its message and the remediation hints; it is never silently swallowed. -/
theorem main_surfaces_errors (env : Env) (raw : RawInputs) (e : PyErr)
    (h : (structured_generator env "gpt-5" (mainPrompt raw)
        ChampionRecommendationsModel).result = Except.error e) :
    ("\n❌ Error: " ++ e.message) ∈ app_main env raw ∧
    "\nMake sure:" ∈ app_main env raw ∧
    "1. Your .env file exists with OPENAI_API_KEY set" ∈ app_main env raw ∧
    "2. You have installed required packages: pip install openai pydantic python-dotenv" ∈ app_main env raw ∧
    "3. You have API credits available in your OpenAI account" ∈ app_main env raw := by
  simp [app_main, h, errorHintLines]

/-- C8 witness: with no key configured, the run prints the `ValueError`
message and all the remediation hints. -/
theorem main_surfaces_errors_witness :
    ("\n❌ Error: " ++ (PyErr.valueError keyNotFoundMessage).message) ∈
      app_main envNoKey blankInputs ∧
    "\nMake sure:" ∈ app_main envNoKey blankInputs ∧
    "1. Your .env file exists with OPENAI_API_KEY set" ∈ app_main envNoKey blankInputs ∧
    "2. You have installed required packages: pip install openai pydantic python-dotenv" ∈ app_main envNoKey blankInputs ∧
    "3. You have API credits available in your OpenAI account" ∈ app_main envNoKey blankInputs :=
  main_surfaces_errors envNoKey blankInputs (PyErr.valueError keyNotFoundMessage) rfl
